import Mathlib

/-!
# GenefloAI — verification of the tutoring-assistant core

Shallow embedding of the GenefloAI conversational tutoring assistant
(an Express/Node.js application) and proofs about its session, memory,
knowledge-estimation and response-selection logic.

Modelling conventions:
* JS strings are Lean `String`s; `s.toLowerCase()` is `foldCase`,
  `a.includes(b)` is `jsIncludes`, `arr.slice(-n)` is `jsSliceLast`.
* JS numbers are rationals (`ℚ`); `Math.round` is `jsRound`.
* JS `Map`s keyed by strings are total functions with a default
  (`[]`), except for concept confidences, which must be enumerable and
  are therefore insertion-ordered association lists, exactly like a JS
  `Map`'s entry order.
* Each definition is annotated with the source location it embeds.
-/

namespace GenefloAI

set_option maxRecDepth 40000

/-! ### JavaScript primitives -/

/-- JS `s.toLowerCase()`: case-fold a string character by character. -/
def foldCase (s : String) : String := ⟨s.data.map Char.toLower⟩

/-- Whether the first list is a prefix of the second (boolean version). -/
def charsPrefixOf : List Char → List Char → Bool
  | [], _ => true
  | _ :: _, [] => false
  | a :: as, b :: bs => a == b && charsPrefixOf as bs

/-- Whether the first list occurs as a contiguous segment of the second. -/
def charsInfixOf (needle : List Char) : List Char → Bool
  | [] => charsPrefixOf needle []
  | b :: bs => charsPrefixOf needle (b :: bs) || charsInfixOf needle bs

/-- JS `hay.includes(needle)`: substring containment test. -/
def jsIncludes (hay needle : String) : Bool := charsInfixOf needle.data hay.data

/-- JS `arr.slice(-n)` for `n ≥ 1`: the last `n` entries (all of them when
the array is shorter). -/
def jsSliceLast {α : Type} (n : Nat) (l : List α) : List α := l.drop (l.length - n)

/-- JS `Math.round(x)`: round half towards positive infinity. -/
def jsRound (x : ℚ) : ℤ := ⌊x + 1/2⌋

/-- JS `x.toFixed(1)` for the nonnegative knowledge levels occurring here:
one decimal digit after the point. -/
def jsToFixed1 (x : ℚ) : String :=
  let n : ℤ := jsRound (x * 10)
  toString (n / 10) ++ "." ++ toString (n % 10)

/-! ### Topic Catalog (src/server.js:360-401, `knowledgeBase`)

Record fields in order: `title`, `content`, `keywords`. -/

structure TopicData where
  title : String
  content : String
  keywords : List String
deriving DecidableEq

/-- Catalog entry `"dna structure"` (src/server.js:361-365). -/
def topicDnaStructure : TopicData :=
  ⟨"DNA Structure",
   "DNA (Deoxyribonucleic Acid) has a double-helical structure composed of two antiparallel strands. Each strand consists of nucleotides containing a deoxyribose sugar, phosphate group, and one of four nitrogenous bases: Adenine (A), Thymine (T), Cytosine (C), and Guanine (G). Bases form complementary pairs: A-T and G-C, connected by hydrogen bonds. The structure was discovered by Watson and Crick in 1953.",
   ["double helix", "nucleotides", "base pairing", "watson crick"]⟩

/-- Catalog entry `"transcription"` (src/server.js:366-370). -/
def topicTranscription : TopicData :=
  ⟨"Transcription Process",
   "Transcription is the first step of gene expression where DNA is copied into mRNA. RNA polymerase binds to promoter regions and unwinds the DNA helix. The template strand is used to synthesize a complementary mRNA molecule in the 5\x27 to 3\x27 direction. Key steps include: initiation, elongation, and termination. In eukaryotes, mRNA undergoes processing including 5\x27 capping, splicing, and 3\x27 polyadenylation.",
   ["rna polymerase", "promoter", "template strand", "mrna synthesis"]⟩

/-- Catalog entry `"translation"` (src/server.js:371-375). -/
def topicTranslation : TopicData :=
  ⟨"Translation Process",
   "Translation converts mRNA into proteins through ribosomes. Ribosomes read mRNA codons (triplets) and tRNA molecules bring corresponding amino acids. The process includes: initiation (start codon AUG), elongation (peptide bond formation), and termination (stop codons UAA, UAG, UGA). The genetic code is degenerate, universal, and non-overlapping.",
   ["ribosome", "codon", "tRNA", "amino acids", "genetic code"]⟩

/-- Catalog entry `"genetic code"` (src/server.js:376-380). -/
def topicGeneticCode : TopicData :=
  ⟨"Genetic Code",
   "The genetic code is the set of rules by which mRNA sequences are translated into proteins. It\x27s characterized by: 1) Triplet nature (3 bases per codon), 2) Degeneracy (multiple codons code for same amino acid), 3) Universality (mostly conserved across species), 4) Non-overlapping, 5) Start codon (AUG for Methionine), 6) Stop codons (UAA, UAG, UGA).",
   ["codon table", "start codon", "stop codon", "degenerate"]⟩

/-- Catalog entry `"lac operon"` (src/server.js:381-385). -/
def topicLacOperon : TopicData :=
  ⟨"Lac Operon Regulation",
   "The lac operon is a classic example of gene regulation in E. coli. It controls lactose metabolism and consists of: structural genes (lacZ, lacY, lacA), operator, promoter, and repressor. In absence of lactose, repressor binds operator preventing transcription. When lactose is present, it acts as inducer, inactivating repressor and allowing transcription.",
   ["operon", "gene regulation", "lactose", "repressor", "inducer"]⟩

/-- Catalog entry `"replication"` (src/server.js:386-390). -/
def topicReplication : TopicData :=
  ⟨"DNA Replication",
   "DNA replication is semi-conservative and bidirectional. Key enzymes: Helicase (unwinds DNA), Primase (synthesizes RNA primers), DNA Polymerase III (extends primers), DNA Polymerase I (replaces primers), Ligase (joins Okazaki fragments). Leading strand is continuous, lagging strand is discontinuous. Replication ensures genetic continuity.",
   ["semi-conservative", "helicase", "dna polymerase", "okazaki fragments"]⟩

/-- Catalog entry `"mutations"` (src/server.js:391-395). -/
def topicMutations : TopicData :=
  ⟨"Genetic Mutations",
   "Mutations are changes in DNA sequence. Types include: Point mutations (substitutions), Frameshift mutations (insertions/deletions), Silent mutations (no amino acid change), Missense (amino acid change), Nonsense (premature stop codon). Mutations can be spontaneous or induced by mutagens.",
   ["point mutation", "frameshift", "silent", "missense", "nonsense"]⟩

/-- Catalog entry `"central dogma"` (src/server.js:396-400). -/
def topicCentralDogma : TopicData :=
  ⟨"Central Dogma of Molecular Biology",
   "The Central Dogma describes information flow: DNA → RNA → Protein. Key processes: Replication (DNA to DNA), Transcription (DNA to RNA), Translation (RNA to Protein). Reverse transcription (RNA to DNA) occurs in retroviruses. This framework explains how genetic information is expressed and maintained.",
   ["dna to rna", "rna to protein", "information flow", "crick"]⟩

/-- The topic catalog in definition order, as iterated by
`Object.entries(knowledgeBase)` (src/server.js:360-401). -/
def knowledgeBase : List (String × TopicData) :=
  [("dna structure", topicDnaStructure),
   ("transcription", topicTranscription),
   ("translation", topicTranslation),
   ("genetic code", topicGeneticCode),
   ("lac operon", topicLacOperon),
   ("replication", topicReplication),
   ("mutations", topicMutations),
   ("central dogma", topicCentralDogma)]

/-- `findRelevantTopic` (src/server.js:404-424): case-fold the query, scan the
catalog in definition order for a topic identifier occurring as a substring,
and only if none does, scan for a keyword occurring as a substring. -/
def findRelevantTopic (query : String) : Option (String × TopicData) :=
  let lowerQuery := foldCase query
  match knowledgeBase.find? (fun p => jsIncludes lowerQuery p.1) with
  | some p => some p
  | none =>
    knowledgeBase.find? (fun p => p.2.keywords.any (fun keyword => jsIncludes lowerQuery keyword))

/-! ### First-match semantics of `List.find?` -/

/-- When some element of `l` satisfies `p`, `l.find? p` returns the element at
the first index satisfying `p`. -/
theorem find?_first_spec {α : Type} (p : α → Bool) :
    ∀ l : List α, (∃ a ∈ l, p a = true) →
      ∃ i, ∃ hi : i < l.length, l.find? p = some (l.get ⟨i, hi⟩) ∧
        p (l.get ⟨i, hi⟩) = true ∧
        ∀ j (hj : j < l.length), j < i → p (l.get ⟨j, hj⟩) = false
  | [], h => absurd h (by simp)
  | a :: t, h => by
    cases hpa : p a with
    | true =>
      refine ⟨0, by simp, ?_, by simpa using hpa, ?_⟩
      · simp [List.find?, hpa]
      · intro j hj hj0
        exact absurd hj0 (Nat.not_lt_zero j)
    | false =>
      have ht : ∃ b ∈ t, p b = true := by
        rcases h with ⟨b, hb, hpb⟩
        rcases List.mem_cons.mp hb with rfl | hbt
        · rw [hpa] at hpb
          exact absurd hpb (by simp)
        · exact ⟨b, hbt, hpb⟩
      rcases find?_first_spec p t ht with ⟨i, hi, hfind, hpi, hmin⟩
      refine ⟨i + 1, Nat.succ_lt_succ hi, ?_, by simpa using hpi, ?_⟩
      · simpa [List.find?, hpa] using hfind
      · intro j hj hji
        cases j with
        | zero => simpa using hpa
        | succ j' =>
          simpa using hmin j' (Nat.lt_of_succ_lt_succ hj) (Nat.lt_of_succ_lt_succ hji)

/-- **C1.** If the case-folded query contains some topic identifier of the
catalog verbatim, `findRelevantTopic` answers from the exact-match phase: it
returns the first catalog entry (in definition order) whose identifier is a
substring of the case-folded query — so exact identifier matches take strict
priority over the keyword scan, which is never reached. -/
theorem C1_exact_match_first (query : String) (entry : String × TopicData)
    (hmem : entry ∈ knowledgeBase)
    (hsub : jsIncludes (foldCase query) entry.1 = true) :
    ∃ i, ∃ hi : i < knowledgeBase.length,
      findRelevantTopic query = some (knowledgeBase.get ⟨i, hi⟩) ∧
      jsIncludes (foldCase query) (knowledgeBase.get ⟨i, hi⟩).1 = true ∧
      ∀ j (hj : j < knowledgeBase.length), j < i →
        jsIncludes (foldCase query) (knowledgeBase.get ⟨j, hj⟩).1 = false := by
  rcases find?_first_spec (fun p => jsIncludes (foldCase query) p.1) knowledgeBase
      ⟨entry, hmem, hsub⟩ with ⟨i, hi, hfind, hpi, hmin⟩
  refine ⟨i, hi, ?_, hpi, hmin⟩
  simp only [findRelevantTopic]
  rw [hfind]

/-- Witness for C1 at the concrete query `"Explain DNA STRUCTURE please"`. -/
theorem C1_witness :
    (("dna structure", topicDnaStructure) ∈ knowledgeBase ∧
      jsIncludes (foldCase "Explain DNA STRUCTURE please") "dna structure" = true) ∧
    (∃ i, ∃ hi : i < knowledgeBase.length,
      findRelevantTopic "Explain DNA STRUCTURE please" = some (knowledgeBase.get ⟨i, hi⟩) ∧
      jsIncludes (foldCase "Explain DNA STRUCTURE please") (knowledgeBase.get ⟨i, hi⟩).1 = true ∧
      ∀ j (hj : j < knowledgeBase.length), j < i →
        jsIncludes (foldCase "Explain DNA STRUCTURE please") (knowledgeBase.get ⟨j, hj⟩).1 = false) :=
  ⟨⟨by decide, by decide⟩,
   C1_exact_match_first "Explain DNA STRUCTURE please" ("dna structure", topicDnaStructure)
     (by decide) (by decide)⟩

/-! ### Memory Store (src/unnamed/part_004:41-104, `class EnhancedMemory`) -/

/-- The `role` tag of a stored conversation turn. -/
inductive Role
  | user
  | assistant
deriving DecidableEq, BEq

/-- A stored conversation turn `{role, content, timestamp}`
(src/unnamed/part_004:55-65). -/
structure ConversationTurn where
  role : Role
  content : String
  timestamp : Nat
deriving DecidableEq

/-- `EnhancedMemory` state (src/unnamed/part_004:42-46): a per-user
conversation log and per-user, per-concept confidence scores.  The concept
scores of one user form an insertion-ordered association list, matching the
entry order of a JS `Map`.  (The unused `userModels` map is omitted: no method
reads or writes it.) -/
structure EnhancedMemory where
  conversationMemory : String → List ConversationTurn
  conceptMemory : String → List (String × ℚ)

/-- The freshly constructed memory system: both maps empty. -/
def emptyMemory : EnhancedMemory := ⟨fun _ => [], fun _ => []⟩

/-- JS `map.get(key) || 0` on an association list. -/
def getAssoc (l : List (String × ℚ)) (k : String) : ℚ :=
  ((l.find? (fun p => p.1 == k)).map Prod.snd).getD 0

/-- JS `map.set(key, v)`: overwrite in place when the key exists (keeping its
position), otherwise append a new entry. -/
def setAssoc (l : List (String × ℚ)) (k : String) (v : ℚ) : List (String × ℚ) :=
  if l.any (fun p => p.1 == k) then
    l.map (fun p => if p.1 == k then (k, v) else p)
  else
    l ++ [(k, v)]

/-- `EnhancedMemory.storeConversation` (src/unnamed/part_004:49-71): push a
user turn then an assistant turn (both with the given timestamp) onto the
user's history — created empty when absent — and when the result exceeds 50
entries keep only the last 50. -/
def EnhancedMemory.storeConversation (m : EnhancedMemory)
    (userId message response : String) (timestamp : Nat) : EnhancedMemory :=
  let conversation := m.conversationMemory userId
  let pushed := conversation ++
    [⟨Role.user, message, timestamp⟩, ⟨Role.assistant, response, timestamp⟩]
  let final := if pushed.length > 50 then jsSliceLast 50 pushed else pushed
  ⟨fun u => if u = userId then final else m.conversationMemory u, m.conceptMemory⟩

/-- `EnhancedMemory.learnConcept` (src/unnamed/part_004:74-82): set the
(user, concept) confidence to `min 1 (current + confidence * 0.1)`, the
current value defaulting to 0. -/
def EnhancedMemory.learnConcept (m : EnhancedMemory)
    (userId concept : String) (confidence : ℚ) : EnhancedMemory :=
  let userConcepts := m.conceptMemory userId
  let currentConfidence := getAssoc userConcepts concept
  ⟨m.conversationMemory,
   fun u => if u = userId then
     setAssoc userConcepts concept (min 1 (currentConfidence + confidence * (1/10)))
   else m.conceptMemory u⟩

/-- The stored confidence of a (user, concept) pair, 0 when absent
(`userConcepts.get(concept) || 0`). -/
def EnhancedMemory.conceptConfidence (m : EnhancedMemory) (userId concept : String) : ℚ :=
  getAssoc (m.conceptMemory userId) concept

/-- The record returned by `getRelevantMemories`. -/
structure MemoryView where
  recentConversations : List String
  knownConcepts : List String
deriving DecidableEq

/-- `EnhancedMemory.getRelevantMemories` (src/unnamed/part_004:85-103): the
contents of the user's last `limit` user-role turns, and the concepts whose
confidence exceeds 0.7.  A pure read; `currentMessage` is accepted but not
used for scoring, as in the source. -/
def EnhancedMemory.getRelevantMemories (m : EnhancedMemory)
    (userId currentMessage : String) (limit : Nat) : MemoryView :=
  let conversation := m.conversationMemory userId
  let concepts := m.conceptMemory userId
  let relevantMemories :=
    (jsSliceLast limit (conversation.filter (fun msg => msg.role == Role.user))).map
      (fun msg => msg.content)
  let strongConcepts := (concepts.filter (fun p => decide ((7:ℚ)/10 < p.2))).map Prod.fst
  ⟨relevantMemories, strongConcepts⟩

/-- A call to `getRelevantMemories` as Express executes it: the method body
contains no assignment, so the store is returned unchanged. -/
def getRelevantMemoriesCall (m : EnhancedMemory) (userId currentMessage : String)
    (limit : Nat) : MemoryView × EnhancedMemory :=
  (m.getRelevantMemories userId currentMessage limit, m)

/-- One recorded call to `storeConversation`. -/
structure StoreCall where
  userId : String
  message : String
  response : String
  timestamp : Nat

/-- Replay a sequence of `storeConversation` calls against a memory state. -/
def applyStores (ops : List StoreCall) (m : EnhancedMemory) : EnhancedMemory :=
  ops.foldl (fun acc op => acc.storeConversation op.userId op.message op.response op.timestamp) m

/-- A history alternates `user`/`assistant` turns starting with `user`. -/
def alternatingHistory (h : List ConversationTurn) : Prop :=
  ∀ i (hi : i < h.length), (h[i]).role =
    if i % 2 = 0 then Role.user else Role.assistant

/-- The conversation-history invariant maintained by the Memory Store: even
length, at most 50 entries, alternating user/assistant turns. -/
def historyInvariant (h : List ConversationTurn) : Prop :=
  h.length % 2 = 0 ∧ h.length ≤ 50 ∧ alternatingHistory h

/-! ### The session-history update of the stateful chat endpoint
(src/server.js:520-528) -/

/-- The `conversationHistory` computed for `updatedSession` by the
`/api/chat` handler of the MolGenoBot variant (src/server.js:523-527):
`[...currentSession.conversationHistory.slice(-49), userTurn, assistantTurn]`,
annotated in the source with "Keep last 50 messages". -/
def molGenoUpdatedHistory (old : List ConversationTurn)
    (message response : String) (now : Nat) : List ConversationTurn :=
  jsSliceLast 49 old ++ [⟨Role.user, message, now⟩, ⟨Role.assistant, response, now⟩]

/-- **C2.** The session-history update of src/server.js:520-528 overflows its
own cap: starting from a history already holding 50 turns (the steady state
the comment "Keep last 50 messages" intends), one more chat request produces
a history of 51 turns, exceeding the 50-entry cap. -/
theorem C2_cap_overflow :
    (molGenoUpdatedHistory (List.replicate 50 ⟨Role.user, "old", 0⟩) "msg" "ans" 1).length = 51 ∧
    50 < (molGenoUpdatedHistory (List.replicate 50 ⟨Role.user, "old", 0⟩) "msg" "ans" 1).length := by
  constructor <;> decide

/-- **C10.** For a user with no stored conversations and no learned concepts,
`getRelevantMemories` returns the empty record — absence of state is a normal
empty result — and for every store the operation is a pure read: the store is
returned unchanged and a second call with no intervening write returns the
identical result. -/
theorem C10_empty_read_pure (m : EnhancedMemory) (u msg : String)
    (h1 : m.conversationMemory u = []) (h2 : m.conceptMemory u = []) :
    m.getRelevantMemories u msg 5 = ⟨[], []⟩ ∧
    ∀ (m2 : EnhancedMemory) (u2 msg2 : String) (lim : Nat),
      (getRelevantMemoriesCall m2 u2 msg2 lim).2 = m2 ∧
      (getRelevantMemoriesCall ((getRelevantMemoriesCall m2 u2 msg2 lim).2) u2 msg2 lim).1 =
        (getRelevantMemoriesCall m2 u2 msg2 lim).1 := by
  refine ⟨?_, fun m2 u2 msg2 lim => ⟨rfl, rfl⟩⟩
  simp [EnhancedMemory.getRelevantMemories, h1, h2, jsSliceLast]

/-- Witness for C10 on the freshly constructed memory system. -/
theorem C10_witness :
    (emptyMemory.conversationMemory "newcomer" = [] ∧
      emptyMemory.conceptMemory "newcomer" = []) ∧
    emptyMemory.getRelevantMemories "newcomer" "what is dna" 5 = ⟨[], []⟩ :=
  ⟨⟨rfl, rfl⟩,
   (C10_empty_read_pure emptyMemory "newcomer" "what is dna" rfl rfl).1⟩

/-! ### Concept-confidence lemmas (claim C3) -/

/-- Reading back the key just written by `setAssoc` yields the written value. -/
theorem getAssoc_setAssoc (l : List (String × ℚ)) (k : String) (v : ℚ) :
    getAssoc (setAssoc l k v) k = v := by
  induction l with
  | nil => simp [setAssoc, getAssoc]
  | cons p t ih =>
    by_cases hp : p.1 = k
    · simp [setAssoc, getAssoc, hp, List.find?]
    · have hpb : (p.1 == k) = false := by simpa using hp
      by_cases ht : t.any (fun q => q.1 == k)
      · have h1 : setAssoc (p :: t) k v = p :: t.map (fun q => if q.1 == k then (k, v) else q) := by
          simp [setAssoc, List.any_cons, hpb, ht, hp]
        have h2 : setAssoc t k v = t.map (fun q => if q.1 == k then (k, v) else q) := by
          simp [setAssoc, ht]
        rw [h1, ← h2]
        simpa [getAssoc, List.find?, hpb] using ih
      · have h1 : setAssoc (p :: t) k v = p :: (t ++ [(k, v)]) := by
          simp [setAssoc, List.any_cons, hpb, ht, hp]
        have h2 : setAssoc t k v = t ++ [(k, v)] := by
          simp [setAssoc, ht]
        rw [h1, ← h2]
        simpa [getAssoc, List.find?, hpb] using ih

/-- The confidence recurrence realized by one `learnConcept` call. -/
theorem learnConcept_confidence (m : EnhancedMemory) (u c : String) (d : ℚ) :
    (m.learnConcept u c d).conceptConfidence u c =
      min 1 (m.conceptConfidence u c + d * (1/10)) := by
  simp [EnhancedMemory.learnConcept, EnhancedMemory.conceptConfidence, getAssoc_setAssoc]

/-- Iterating `learnConcept` acts on the stored confidence as iteration of
the scalar step `x ↦ min 1 (x + d/10)`. -/
theorem iterate_learnConcept_confidence (u c : String) (d : ℚ) (n : Nat) :
    ∀ m : EnhancedMemory,
      ((fun mm => EnhancedMemory.learnConcept mm u c d)^[n] m).conceptConfidence u c =
        (fun x => min 1 (x + d * (1/10)))^[n] (m.conceptConfidence u c) := by
  induction n with
  | zero => intro m; rfl
  | succ n ih =>
    intro m
    rw [Function.iterate_succ_apply, Function.iterate_succ_apply]
    rw [ih, learnConcept_confidence]

/-- Closed form of the saturating scalar step: starting at most 1 and with a
nonnegative increment, `n` iterations give `min 1 (x + n * e)`. -/
theorem iterate_saturating_step (e : ℚ) (he : 0 ≤ e) (x : ℚ) (hx : x ≤ 1) (n : Nat) :
    (fun y => min 1 (y + e))^[n] x = min 1 (x + n * e) := by
  induction n with
  | zero => simp [min_eq_right hx]
  | succ n ih =>
    rw [Function.iterate_succ_apply', ih]
    rcases le_or_lt (x + n * e) 1 with h | h
    · rw [min_eq_right h]
      congr 1
      push_cast
      ring
    · rw [min_eq_left h.le]
      have h2 : (1:ℚ) ≤ x + (n + 1 : Nat) * e := by
        push_cast
        nlinarith
      rw [min_eq_left (by linarith), min_eq_left h2]

/-- **C3.** `learnConcept` keeps the stored (user, concept) confidence monotone
non-decreasing for every nonnegative delta, never lets it exceed 1, and under
repeated calls with a positive delta the confidence saturates at exactly 1 and
stays there. -/
theorem C3_reinforce_monotone_bounded (m : EnhancedMemory) (u c : String) (d : ℚ)
    (hstored : m.conceptConfidence u c ≤ 1) (hd : 0 ≤ d) :
    m.conceptConfidence u c ≤ (m.learnConcept u c d).conceptConfidence u c ∧
    (m.learnConcept u c d).conceptConfidence u c ≤ 1 ∧
    (0 < d → ∃ n : Nat, ∀ k : Nat, n ≤ k →
      ((fun mm => EnhancedMemory.learnConcept mm u c d)^[k] m).conceptConfidence u c = 1) := by
  have he : (0:ℚ) ≤ d * (1/10) := by nlinarith
  refine ⟨?_, ?_, ?_⟩
  · rw [learnConcept_confidence]
    exact le_min hstored (by linarith)
  · rw [learnConcept_confidence]
    exact min_le_left _ _
  · intro hdpos
    have hepos : (0:ℚ) < d * (1/10) := by nlinarith
    obtain ⟨n, hn⟩ := exists_nat_ge ((1 - m.conceptConfidence u c) / (d * (1/10)))
    refine ⟨n, fun k hk => ?_⟩
    rw [iterate_learnConcept_confidence, iterate_saturating_step _ he _ hstored]
    apply min_eq_left
    have hkn : (1 - m.conceptConfidence u c) / (d * (1/10)) ≤ (k : ℚ) :=
      le_trans hn (by exact_mod_cast hk)
    rw [div_le_iff hepos] at hkn
    linarith

/-- Witness for C3: reinforcing `"mutations"` with the delta 0.3 used by every
call site, starting from the fresh store. -/
theorem C3_witness :
    (emptyMemory.conceptConfidence "learner" "mutations" ≤ 1 ∧ (0:ℚ) ≤ 3/10) ∧
    (emptyMemory.conceptConfidence "learner" "mutations" ≤
        (emptyMemory.learnConcept "learner" "mutations" (3/10)).conceptConfidence
          "learner" "mutations" ∧
      (emptyMemory.learnConcept "learner" "mutations" (3/10)).conceptConfidence
          "learner" "mutations" ≤ 1 ∧
      ((0:ℚ) < 3/10 → ∃ n : Nat, ∀ k : Nat, n ≤ k →
        ((fun mm => EnhancedMemory.learnConcept mm "learner" "mutations" (3/10))^[k]
            emptyMemory).conceptConfidence "learner" "mutations" = 1)) :=
  ⟨⟨by decide, by norm_num⟩,
   C3_reinforce_monotone_bounded emptyMemory "learner" "mutations" (3/10)
     (by decide) (by norm_num)⟩

/-! ### History-shape lemmas (claim C9) -/

/-- Appending a user/assistant pair to an even-length alternating history
keeps it alternating. -/
theorem alternating_append_pair (h : List ConversationTurn) (heven : h.length % 2 = 0)
    (halt : alternatingHistory h) (um rm : String) (ts : Nat) :
    alternatingHistory (h ++ [⟨Role.user, um, ts⟩, ⟨Role.assistant, rm, ts⟩]) := by
  intro i hi
  simp only [List.length_append, List.length_cons, List.length_nil] at hi
  by_cases hlt : i < h.length
  · rw [List.getElem_append_left hlt]
    exact halt i hlt
  · have h2 : i = h.length ∨ i = h.length + 1 := by omega
    rcases h2 with rfl | rfl
    · rw [List.getElem_append_right (Nat.le_refl _)]
      simp [heven]
    · rw [List.getElem_append_right (Nat.le_add_right _ _)]
      have hodd : (h.length + 1) % 2 = 1 := by omega
      simp [hodd]

/-- Dropping an even number of entries preserves alternation. -/
theorem alternating_drop (h : List ConversationTurn) (k : Nat) (hk : k % 2 = 0)
    (halt : alternatingHistory h) : alternatingHistory (h.drop k) := by
  intro i hi
  have hlen : k + i < h.length := by
    rw [List.length_drop] at hi
    omega
  rw [List.getElem_drop]
  have hmod : (k + i) % 2 = i % 2 := by omega
  rw [halt (k + i) hlen, hmod]

/-- Unfolding `storeConversation` at the written user's own history. -/
theorem storeConversation_self (m : EnhancedMemory) (u um rm : String) (ts : Nat) :
    (m.storeConversation u um rm ts).conversationMemory u =
      (if (m.conversationMemory u ++
            [ConversationTurn.mk Role.user um ts,
              ConversationTurn.mk Role.assistant rm ts]).length > 50
       then jsSliceLast 50 (m.conversationMemory u ++
            [ConversationTurn.mk Role.user um ts,
              ConversationTurn.mk Role.assistant rm ts])
       else m.conversationMemory u ++
            [ConversationTurn.mk Role.user um ts,
              ConversationTurn.mk Role.assistant rm ts]) := by
  simp [EnhancedMemory.storeConversation]

/-- `storeConversation` leaves every other user's history untouched. -/
theorem storeConversation_other (m : EnhancedMemory) (uw um rm : String) (ts : Nat)
    (u : String) (hu : u ≠ uw) :
    (m.storeConversation uw um rm ts).conversationMemory u = m.conversationMemory u := by
  simp [EnhancedMemory.storeConversation, hu]

/-- One `storeConversation` call preserves the history invariant of every
user's history. -/
theorem storeConversation_invariant (m : EnhancedMemory) (uw um rm : String) (ts : Nat)
    (u : String) (hInv : historyInvariant (m.conversationMemory u)) :
    historyInvariant ((m.storeConversation uw um rm ts).conversationMemory u) := by
  obtain ⟨heven, hle, halt⟩ := hInv
  by_cases hu : u = uw
  · subst hu
    have hpair := alternating_append_pair (m.conversationMemory u) heven halt um rm ts
    have hplen : (m.conversationMemory u ++
        [ConversationTurn.mk Role.user um ts, ConversationTurn.mk Role.assistant rm ts]).length =
        (m.conversationMemory u).length + 2 := by
      simp
    rw [storeConversation_self]
    by_cases hbig : (m.conversationMemory u ++
        [ConversationTurn.mk Role.user um ts, ConversationTurn.mk Role.assistant rm ts]).length > 50
    · rw [if_pos hbig]
      rw [hplen] at hbig
      have h50 : (m.conversationMemory u).length = 50 := by omega
      refine ⟨?_, ?_, ?_⟩
      · simp only [jsSliceLast, List.length_drop, hplen, h50]
      · simp only [jsSliceLast, List.length_drop, hplen, h50]
        omega
      · simp only [jsSliceLast, hplen, h50]
        have h2 : (50 + 2 - 50 : Nat) = 2 := by norm_num
        rw [h2]
        exact alternating_drop _ 2 rfl hpair
    · rw [if_neg hbig]
      rw [hplen] at hbig
      exact ⟨by rw [hplen]; omega, by rw [hplen]; omega, hpair⟩
  · rw [storeConversation_other m uw um rm ts u hu]
    exact ⟨heven, hle, halt⟩

/-- Replaying any sequence of `storeConversation` calls preserves the history
invariant of every user's history. -/
theorem applyStores_invariant (ops : List StoreCall) :
    ∀ m : EnhancedMemory, (∀ u, historyInvariant (m.conversationMemory u)) →
      ∀ u, historyInvariant ((applyStores ops m).conversationMemory u) := by
  induction ops with
  | nil => intro m hm u; exact hm u
  | cons op t ih =>
    intro m hm u
    simp only [applyStores, List.foldl_cons]
    exact ih _ (fun v => storeConversation_invariant m op.userId op.message op.response
      op.timestamp v (hm v)) u

/-- The fresh store satisfies the history invariant for every user. -/
theorem emptyMemory_invariant (u : String) :
    historyInvariant (emptyMemory.conversationMemory u) := by
  refine ⟨rfl, Nat.zero_le _, ?_⟩
  intro i hi
  simp [emptyMemory] at hi

/-- **C9.** After any sequence of `storeConversation` calls starting from the
fresh store, every user's history has even length within the 50-entry cap and
alternates user/assistant turns starting with `user`; and one further call
below the cap appends exactly a user turn then an assistant turn, both
carrying the given timestamp. -/
theorem C9_store_appends_pairs (ops : List StoreCall) (u msg resp : String) (ts : Nat) :
    ((applyStores ops emptyMemory).conversationMemory u).length % 2 = 0 ∧
    ((applyStores ops emptyMemory).conversationMemory u).length ≤ 50 ∧
    alternatingHistory ((applyStores ops emptyMemory).conversationMemory u) ∧
    (((applyStores ops emptyMemory).conversationMemory u).length ≤ 48 →
      ((applyStores ops emptyMemory).storeConversation u msg resp ts).conversationMemory u =
        (applyStores ops emptyMemory).conversationMemory u ++
          [⟨Role.user, msg, ts⟩, ⟨Role.assistant, resp, ts⟩]) := by
  obtain ⟨h1, h2, h3⟩ := applyStores_invariant ops emptyMemory emptyMemory_invariant u
  refine ⟨h1, h2, h3, fun hlen => ?_⟩
  have hnot : ¬ ((applyStores ops emptyMemory).conversationMemory u ++
      [ConversationTurn.mk Role.user msg ts,
        ConversationTurn.mk Role.assistant resp ts]).length > 50 := by
    simp only [List.length_append, List.length_cons, List.length_nil]
    omega
  rw [storeConversation_self, if_neg hnot]

/-- Witness for C9: the very first stored turn pair of a fresh user. -/
theorem C9_witness :
    ((applyStores [] emptyMemory).conversationMemory "alice").length ≤ 48 ∧
    ((applyStores [] emptyMemory).storeConversation "alice" "hi" "welcome" 7).conversationMemory
        "alice" =
      (applyStores [] emptyMemory).conversationMemory "alice" ++
        [⟨Role.user, "hi", 7⟩, ⟨Role.assistant, "welcome", 7⟩] :=
  ⟨by decide, (C9_store_appends_pairs [] "alice" "hi" "welcome" 7).2.2.2 (by decide)⟩

/-! ### User sessions and the Knowledge Estimator
(src/unnamed/part_004:108-217, `class AdaptiveLearningEngine`) -/

/-- A session-side history entry `{message, response, timestamp}` as written by
`updateUserModel` (src/server.js:114-117). -/
structure SessionTurn where
  message : String
  response : String
  timestamp : String
deriving DecidableEq

/-- The client-held `userSession` object: id, knowledge level, conversation
history, interests, last-interaction timestamp. -/
structure UserSession where
  id : String
  knowledgeLevel : ℚ
  conversationHistory : List SessionTurn
  interests : List String
  lastInteraction : String
deriving DecidableEq

/-- Confusion markers (src/unnamed/part_004:191). -/
def confusionIndicators : List String :=
  ["confused", "don\x27t understand", "what does", "explain again"]

/-- Understanding markers (src/unnamed/part_004:192).  `"I see"` is kept with
its source capitalization: it is compared against a lower-cased message. -/
def understandingIndicators : List String :=
  ["I see", "that makes sense", "understood", "thanks for explaining"]

/-- `AdaptiveLearningEngine.analyzeUnderstanding` (src/unnamed/part_004:186-204):
over the last 10 history entries, count messages containing a confusion marker
and messages containing an understanding marker, then clamp
`0.5 + 0.1 * (understanding - confusion)` to `[0.1, 1]`. -/
def analyzeUnderstanding (conversationHistory : List SessionTurn) : ℚ :=
  let recentMessages := jsSliceLast 10 conversationHistory
  let confusionCount := (recentMessages.filter (fun msg =>
    confusionIndicators.any (fun indicator => jsIncludes (foldCase msg.message) indicator))).length
  let understandingCount := (recentMessages.filter (fun msg =>
    understandingIndicators.any (fun indicator =>
      jsIncludes (foldCase msg.message) indicator))).length
  max (1/10) (min 1 (1/2 + ((understandingCount : ℚ) - (confusionCount : ℚ)) * (1/10)))

/-- Beginner markers (src/unnamed/part_004:207). -/
def beginnerKeywords : List String := ["what is", "basic", "simple"]

/-- Advanced markers (src/unnamed/part_004:208). -/
def advancedKeywords : List String := ["mechanism", "regulation", "specific", "detailed"]

/-- `AdaptiveLearningEngine.analyzeQuestionComplexity`
(src/unnamed/part_004:206-216): advanced markers are checked first, then
beginner markers, else medium. -/
def analyzeQuestionComplexity (question : String) : String :=
  if advancedKeywords.any (fun keyword => jsIncludes (foldCase question) keyword) then "high"
  else if beginnerKeywords.any (fun keyword => jsIncludes (foldCase question) keyword) then "low"
  else "medium"

/-- `AdaptiveLearningEngine.assessKnowledgeLevel` (src/unnamed/part_004:148-164):
raise the level by 0.1 (ceiling 5) when understanding > 0.8 and the question is
high-complexity, lower it by 0.1 (floor 1) when understanding < 0.4, otherwise
return it unchanged. -/
def assessKnowledgeLevel (userSession : UserSession) (currentMessage : String) : ℚ :=
  let understandingScore := analyzeUnderstanding userSession.conversationHistory
  let questionComplexity := analyzeQuestionComplexity currentMessage
  if understandingScore > 4/5 ∧ questionComplexity = "high" then
    min 5 (userSession.knowledgeLevel + 1/10)
  else if understandingScore < 2/5 then
    max 1 (userSession.knowledgeLevel - 1/10)
  else
    userSession.knowledgeLevel

/-- **C4 counterexample.** A session whose `knowledgeLevel` field is 10 with an
empty history and a neutral message is returned at level 10, outside [1, 5]:
the claim fails for arbitrary input knowledge levels. -/
theorem C4_counterexample :
    assessKnowledgeLevel ⟨"u1", 10, [], [], ""⟩ "hello" = 10 ∧
    ¬ assessKnowledgeLevel ⟨"u1", 10, [], [], ""⟩ "hello" ≤ 5 := by
  have hau : analyzeUnderstanding ([] : List SessionTurn) = 1/2 := by
    simp only [analyzeUnderstanding, jsSliceLast]
    norm_num
  constructor
  · simp only [assessKnowledgeLevel, hau]
    norm_num
  · simp only [assessKnowledgeLevel, hau]
    norm_num

/-- **C4 (amended).** Whenever the input session's knowledge level lies within
[1, 5], `assessKnowledgeLevel` stays within [1, 5], for every message and every
history length or content. -/
theorem C4_level_bounds (userSession : UserSession) (currentMessage : String)
    (hlo : 1 ≤ userSession.knowledgeLevel) (hhi : userSession.knowledgeLevel ≤ 5) :
    1 ≤ assessKnowledgeLevel userSession currentMessage ∧
    assessKnowledgeLevel userSession currentMessage ≤ 5 := by
  simp only [assessKnowledgeLevel]
  split_ifs with h1 h2
  · constructor
    · exact le_min (by norm_num) (by linarith)
    · exact min_le_left _ _
  · constructor
    · exact le_max_left _ _
    · exact max_le (by norm_num) (by linarith)
  · exact ⟨hlo, hhi⟩

/-- Witness for the amended C4 at a default-shaped session. -/
theorem C4_witness :
    ((1:ℚ) ≤ (⟨"u2", 3, [], [], ""⟩ : UserSession).knowledgeLevel ∧
      (⟨"u2", 3, [], [], ""⟩ : UserSession).knowledgeLevel ≤ 5) ∧
    (1 ≤ assessKnowledgeLevel ⟨"u2", 3, [], [], ""⟩ "what is dna" ∧
      assessKnowledgeLevel ⟨"u2", 3, [], [], ""⟩ "what is dna" ≤ 5) :=
  ⟨⟨by norm_num, by norm_num⟩,
   C4_level_bounds ⟨"u2", 3, [], [], ""⟩ "what is dna" (by norm_num) (by norm_num)⟩

/-- **C5 counterexample.** `"what is the mechanism"` contains the beginner
marker `"what is"`, yet the classifier returns `"high"`, not `"low"`: the code
checks advanced markers first, contrary to the claim's stated order. -/
theorem C5_counterexample :
    beginnerKeywords.any
        (fun keyword => jsIncludes (foldCase "what is the mechanism") keyword) = true ∧
    analyzeQuestionComplexity "what is the mechanism" = "high" ∧
    analyzeQuestionComplexity "what is the mechanism" ≠ "low" := by
  refine ⟨by decide, by decide, by decide⟩

/-- **C5 (amended).** Complexity classification with advanced-marker priority:
`"high"` whenever an advanced marker occurs in the case-folded message,
`"low"` when a beginner marker occurs and no advanced marker does, and
`"medium"` when neither kind of marker occurs. -/
theorem C5_complexity_classification (question : String) :
    ((∃ keyword ∈ advancedKeywords, jsIncludes (foldCase question) keyword = true) →
      analyzeQuestionComplexity question = "high") ∧
    ((¬ ∃ keyword ∈ advancedKeywords, jsIncludes (foldCase question) keyword = true) →
      (∃ keyword ∈ beginnerKeywords, jsIncludes (foldCase question) keyword = true) →
      analyzeQuestionComplexity question = "low") ∧
    ((¬ ∃ keyword ∈ advancedKeywords, jsIncludes (foldCase question) keyword = true) →
      (¬ ∃ keyword ∈ beginnerKeywords, jsIncludes (foldCase question) keyword = true) →
      analyzeQuestionComplexity question = "medium") := by
  unfold analyzeQuestionComplexity
  refine ⟨fun hadv => ?_, fun hnadv hbeg => ?_, fun hnadv hnbeg => ?_⟩
  · rw [if_pos (List.any_eq_true.mpr hadv)]
  · rw [if_neg ?_, if_pos (List.any_eq_true.mpr hbeg)]
    intro hc
    exact hnadv (List.any_eq_true.mp hc)
  · rw [if_neg ?_, if_neg ?_]
    · intro hc
      exact hnbeg (List.any_eq_true.mp hc)
    · intro hc
      exact hnadv (List.any_eq_true.mp hc)

/-- Witness for the amended C5: a message carrying an advanced marker is
classified `"high"`. -/
theorem C5_witness :
    (∃ keyword ∈ advancedKeywords,
      jsIncludes (foldCase "Describe the regulation of the lac operon") keyword = true) ∧
    analyzeQuestionComplexity "Describe the regulation of the lac operon" = "high" :=
  ⟨by decide,
   (C5_complexity_classification "Describe the regulation of the lac operon").1 (by decide)⟩

/-! ### Reasoning Engine (src/unnamed/part_004:222-328, `class ReasoningEngine`) -/

/-- A fact-base entry together with its key, as assembled by
`retrieveRelevantFacts` via `{ concept, ...fact }`.  Object fields absent in
the source (`steps` for `central_dogma`, `processes` for `dna_replication`,
`enzymes` for `central_dogma`) are empty lists; the optional chaining
`fact.steps?.some(...)` on a missing `steps` is falsy, which coincides with
`List.any` on `[]`. -/
structure Fact where
  concept : String
  description : String
  steps : List String
  enzymes : List String
  processes : List String
deriving DecidableEq

/-- `initializeFactBase` (src/unnamed/part_004:227-240). -/
def factBase : List Fact :=
  [⟨"dna_replication", "Process of DNA copying",
    ["initiation", "elongation", "termination"],
    ["DNA polymerase", "helicase", "ligase"], []⟩,
   ⟨"central_dogma", "DNA → RNA → Protein", [], [],
    ["replication", "transcription", "translation"]⟩]

/-- `ReasoningEngine.analyzeIntent` (src/unnamed/part_004:262-276). -/
def analyzeIntent (message : String) : String :=
  let lowerMessage := foldCase message
  if jsIncludes lowerMessage "how" || jsIncludes lowerMessage "process" then
    "process_explanation"
  else if jsIncludes lowerMessage "difference between" then "comparison"
  else if jsIncludes lowerMessage "why" then "reasoning"
  else if jsIncludes lowerMessage "what is" || jsIncludes lowerMessage "define" then
    "definition"
  else "general_information"

/-- The context record built by `buildEnhancedContext` (src/server.js:25-35).
Fields: userKnowledge, recentConversations, knownConcepts, queryComplexity. -/
structure ChatContext where
  userKnowledge : ℚ
  recentConversations : List String
  knownConcepts : List String
  queryComplexity : String
deriving DecidableEq

/-- `buildEnhancedContext` (src/server.js:25-35): read the user's memories and
classify the query; `userSession.knowledgeLevel || 3` maps the falsy level 0
to 3. -/
def buildEnhancedContext (message : String) (userSession : UserSession)
    (m : EnhancedMemory) : ChatContext :=
  let memories := m.getRelevantMemories userSession.id message 5
  let knowledgeLevel :=
    if userSession.knowledgeLevel = 0 then 3 else userSession.knowledgeLevel
  ⟨knowledgeLevel, memories.recentConversations, memories.knownConcepts,
   analyzeQuestionComplexity message⟩

/-- `ReasoningEngine.retrieveRelevantFacts` (src/unnamed/part_004:309-325):
split the lower-cased message on spaces and keep every fact-base entry with a
token occurring in its key, its lower-cased description, or one of its steps.
The `context` argument is accepted and ignored, as in the source. -/
def retrieveRelevantFacts (message : String) (context : ChatContext) : List Fact :=
  let keywords := (foldCase message).splitOn " "
  factBase.filter (fun fact => keywords.any (fun keyword =>
    jsIncludes fact.concept keyword ||
    jsIncludes (foldCase fact.description) keyword ||
    fact.steps.any (fun step => jsIncludes (foldCase step) keyword)))

/-- `AdaptiveLearningEngine.personalizeExplanation`
(src/unnamed/part_004:167-184): clamp the rounded level into [1,5], look up the
level-keyed explanation, fall back to the level-3 one, then to a fixed text. -/
def personalizeExplanation (concept : String) (knowledgeLevel : ℚ) : String :=
  let level : ℤ := min 5 (max 1 (jsRound knowledgeLevel))
  if concept = "dna_structure" then
    if level = 1 then
      "DNA is like a twisted ladder with four chemical letters: A, T, C, G."
    else if level = 5 then
      "The DNA double helix features major and minor grooves, with anti-parallel strands running 5\x27 to 3\x27 and 3\x27 to 5\x27."
    else
      "DNA has a double-helix structure with complementary base pairing: A-T and C-G."
  else if concept = "transcription" then
    if level = 1 then
      "Transcription copies DNA into mRNA so it can leave the nucleus."
    else if level = 5 then
      "Transcription involves initiation at promoter elements, elongation with NTP addition, and termination at specific sequences."
    else
      "RNA polymerase binds to promoter regions and synthesizes mRNA complementary to the template strand."
  else "Explanation not available."

/-- `ReasoningEngine.buildReasoningChain` (src/unnamed/part_004:278-295). -/
def buildReasoningChain (question : String) (facts : List Fact)
    (userSession : UserSession) : List String :=
  ["User asked: \"" ++ question ++ "\"",
   "Detected intent: " ++ analyzeIntent question] ++
  (if facts.length > 0 then
    ("Found " ++ toString facts.length ++ " relevant facts in knowledge base") ::
      facts.enum.map (fun p => "Fact " ++ toString (p.1 + 1) ++ ": " ++ p.2.description)
   else []) ++
  ["User knowledge level: " ++ jsToFixed1 userSession.knowledgeLevel,
   "Adapting explanation complexity accordingly"]

/-- `ReasoningEngine.formulateAnswer` (src/unnamed/part_004:297-307). -/
def formulateAnswer (reasoningSteps : List String) (knowledgeLevel : ℚ) : String :=
  if reasoningSteps.contains "Detected intent: definition" then
    personalizeExplanation "dna_structure" knowledgeLevel
  else
    "Based on your question and current understanding level, here\x27s what I can explain..."

/-- The record returned by `generateReasonedResponse`. -/
structure ReasonedResponse where
  answer : String
  reasoning : List String
  conceptsUsed : List String
deriving DecidableEq

/-- `ReasoningEngine.generateReasonedResponse` (src/unnamed/part_004:242-260):
retrieve facts, build the reasoning chain (which recomputes the step-1 intent),
formulate the answer, and report the concepts used. -/
def generateReasonedResponse (message : String) (context : ChatContext)
    (userSession : UserSession) : ReasonedResponse :=
  let relevantFacts := retrieveRelevantFacts message context
  let reasoningSteps := buildReasoningChain message relevantFacts userSession
  ⟨formulateAnswer reasoningSteps userSession.knowledgeLevel,
   reasoningSteps,
   relevantFacts.map Fact.concept⟩

/-! ### The genetics chat endpoint (src/server.js:24-182) -/

/-- `geneticsKeywords` (src/server.js:92-102), in definition order and with the
source's capitalization kept (`"recA"`, `"IS element"` are compared against a
lower-cased message and therefore never match, as in the source). -/
def geneticsKeywords : List (String × List String) :=
  [("mutations", ["mutation", "mutant", "mutagen"]),
   ("genetic_recombination", ["recombination", "crossing over", "recA", "holliday"]),
   ("genetic_mapping", ["mapping", "genetic map", "recombination frequency"]),
   ("complementation", ["complementation", "cis trans", "dominant recessive"]),
   ("transposable_elements", ["transposon", "jumping gene", "IS element", "retrotransposon"]),
   ("genetic_engineering", ["genetic engineering", "recombinant", "cloning", "restriction enzyme"]),
   ("bacterial_genetics", ["bacterial genetics", "transduction", "conjugation", "transformation"]),
   ("yeast_genetics", ["yeast genetics", "mating type"]),
   ("drosophila_genetics", ["drosophila", "fruit fly", "fate mapping"])]

/-- `updateUserModel` of the genetics server (src/server.js:87-119): reassess
the level, reinforce every concept whose trigger keyword occurs in the
lower-cased message (delta 0.3), and rebuild the session with the last 20
history entries. -/
def updateUserModelG (userSession : UserSession) (message response : String)
    (m : EnhancedMemory) (now : String) : UserSession × EnhancedMemory :=
  let updatedLevel := assessKnowledgeLevel userSession message
  let lowerMessage := foldCase message
  let m2 := geneticsKeywords.foldl (fun acc p =>
    if p.2.any (fun keyword => jsIncludes lowerMessage keyword) then
      acc.learnConcept userSession.id p.1 (3/10)
    else acc) m
  (⟨userSession.id, updatedLevel,
    jsSliceLast 20 (userSession.conversationHistory ++ [⟨message, response, now⟩]),
    userSession.interests, now⟩, m2)

/-- The per-tier follow-up pools of the genetics server (src/server.js:38-54). -/
def questionTemplates (level : String) : List String :=
  if level = "beginner" then
    ["Can you explain this genetics concept in simpler terms?",
     "What is a real-world example of this genetic principle?",
     "Why is this important in genetic research?"]
  else if level = "intermediate" then
    ["How does this genetic process work in detail?",
     "What are the key experiments that demonstrated this?",
     "How is this genetic mechanism regulated?"]
  else if level = "advanced" then
    ["What are the current research developments in this genetic area?",
     "How do mutations affect this genetic process?",
     "What are the medical applications of this genetic knowledge?"]
  else []

/-- The tier selection of src/server.js:56-58: default intermediate,
overridden to beginner at level ≤ 2 and to advanced at level ≥ 4. -/
def levelName (knowledgeLevel : ℚ) : String :=
  if knowledgeLevel ≥ 4 then "advanced"
  else if knowledgeLevel ≤ 2 then "beginner"
  else "intermediate"

/-- The concept-specific fixed questions of src/server.js:62-82. -/
def conceptQuestionsFor (concept : String) : List String :=
  if concept = "mutations" then
    ["What are the different types of mutations and their effects?",
     "How do cells repair DNA damage?"]
  else if concept = "genetic_recombination" then
    ["What is the molecular mechanism of homologous recombination?",
     "How does recombination create genetic diversity?"]
  else if concept = "genetic_mapping" then
    ["How is genetic mapping used to find disease genes?",
     "What\x27s the difference between genetic and physical maps?"]
  else if concept = "complementation" then
    ["How do complementation tests work in practice?",
     "What can we learn from cis-trans tests?"]
  else if concept = "transposable_elements" then
    ["How are transposable elements used in genetic engineering?",
     "What role do transposons play in evolution?"]
  else if concept = "genetic_engineering" then
    ["What are the main tools used in genetic engineering?",
     "How is recombinant DNA technology applied in medicine?"]
  else []

/-- `generateFollowUpQuestions` of the genetics server (src/server.js:37-85):
up to two concept-specific questions followed by two questions from the
level-appropriate pool. -/
def generateFollowUpQuestionsG (response : String) (conceptsUsed : List String)
    (knowledgeLevel : ℚ) : List String :=
  let conceptQuestions := (conceptsUsed.map conceptQuestionsFor).flatten
  conceptQuestions.take 2 ++ (questionTemplates (levelName knowledgeLevel)).take 2

/-- The `message` field of a chat request body: a JS value that is a string,
some non-string value, or absent. -/
inductive JsMessage
  | absent
  | nonString
  | str (s : String)

/-- The JSON body a chat endpoint responds with, as a record of the fields any
of the variants emit (absent fields are `none` / `[]`). -/
structure ChatResponse where
  status : Nat
  error : Option String
  details : Option String
  response : Option String
  reasoning : List String
  updatedSession : Option UserSession
  suggestedQuestions : List String
  conceptsUsed : List String
  confidence : Option ℚ
deriving DecidableEq

/-- The default session synthesized by the genetics endpoint when the request
carries none (src/server.js:124-129). -/
def defaultGeneticsSession : UserSession :=
  ⟨"default-user", 3, [], ["genetics", "molecular_biology"], ""⟩

/-- The `/api/chat` handler of the genetics server (src/server.js:122-182).
There is no input validation: a string message (empty included) flows through
context building, reasoning, `storeConversation`, `updateUserModel` and
follow-up generation to a 200 response.  A non-string or absent message
reaches `message.toLowerCase()` inside `analyzeQuestionComplexity` before any
store mutation; the thrown `TypeError` is caught at src/server.js:175-181,
which answers 500 with an `error` and `details` field and no `response`
field. -/
def geneticsChatHandler (m : EnhancedMemory) (message : JsMessage)
    (userSession : UserSession) (ts : Nat) (now : String) :
    ChatResponse × EnhancedMemory :=
  match message with
  | JsMessage.str s =>
    let context := buildEnhancedContext s userSession m
    let reasonedResponse := generateReasonedResponse s context userSession
    let m1 := m.storeConversation userSession.id s reasonedResponse.answer ts
    let su := updateUserModelG userSession s reasonedResponse.answer m1 now
    let suggestedQuestions := generateFollowUpQuestionsG reasonedResponse.answer
      reasonedResponse.conceptsUsed su.1.knowledgeLevel
    (⟨200, none, none, some reasonedResponse.answer, reasonedResponse.reasoning,
      some su.1, suggestedQuestions, reasonedResponse.conceptsUsed,
      some (85/100)⟩, su.2)
  | _ =>
    (⟨500,
      some "I encountered an error processing your genetics question. Please try again.",
      some "message.toLowerCase is not a function", none, [], none, [], [], none⟩, m)

/-! ### The deployment chat endpoint (src/unnamed/part_002:33-168) -/

/-- `generateFollowUpQuestions` of the deployment variant
(src/unnamed/part_002:46-55): the first two of a fixed question list. -/
def generateFollowUpQuestions2 (conceptsUsed : List String)
    (knowledgeLevel : ℚ) : List String :=
  (["Would you like me to explain this genetics concept in more detail?",
    "Can I provide an example of how this works in genetic research?",
    "Would you like to explore related genetics topics?"]).take 2

/-- `updateUserModel` of the deployment variant (src/unnamed/part_002:57-85):
reinforce `mutations` / `genetic_recombination` on their trigger keywords and
keep the last 10 history entries. -/
def updateUserModel2 (userSession : UserSession) (message response : String)
    (m : EnhancedMemory) (now : String) : UserSession × EnhancedMemory :=
  let updatedLevel := assessKnowledgeLevel userSession message
  let lowerMessage := foldCase message
  let m1 := if jsIncludes lowerMessage "mutation" then
      m.learnConcept userSession.id "mutations" (3/10)
    else m
  let m2 := if jsIncludes lowerMessage "recombination" then
      m1.learnConcept userSession.id "genetic_recombination" (3/10)
    else m1
  (⟨userSession.id, updatedLevel,
    jsSliceLast 10 (userSession.conversationHistory ++ [⟨message, response, now⟩]),
    userSession.interests, now⟩, m2)

/-- The 400 body of the deployment validation (src/unnamed/part_002:110-115). -/
def invalidMessageBody : ChatResponse :=
  ⟨400, some "Invalid message format", none,
   some "Please provide a valid text message about genetics.", [], none, [], [], none⟩

/-- The `/api/chat` handler of the deployment variant
(src/unnamed/part_002:98-168): `!message || typeof message !== 'string'`
rejects absent, non-string and empty-string messages with 400 before any state
is touched; valid messages run the same pipeline as the genetics server with
the deployment's own `updateUserModel` and fixed follow-ups. -/
def deployChatHandler (m : EnhancedMemory) (message : JsMessage)
    (userSession : UserSession) (ts : Nat) (now : String) :
    ChatResponse × EnhancedMemory :=
  match message with
  | JsMessage.str s =>
    if s = "" then (invalidMessageBody, m)
    else
      let context := buildEnhancedContext s userSession m
      let reasonedResponse := generateReasonedResponse s context userSession
      let m1 := m.storeConversation userSession.id s reasonedResponse.answer ts
      let su := updateUserModel2 userSession s reasonedResponse.answer m1 now
      let suggestedQuestions := generateFollowUpQuestions2
        reasonedResponse.conceptsUsed su.1.knowledgeLevel
      (⟨200, none, none, some reasonedResponse.answer, reasonedResponse.reasoning,
        some su.1, suggestedQuestions, reasonedResponse.conceptsUsed,
        some (85/100)⟩, su.2)
  | _ => (invalidMessageBody, m)

/-- The 500 body of the deployment variant's catch
(src/unnamed/part_002:160-167): error plus a non-empty fallback response. -/
def deploy500Body : ChatResponse :=
  ⟨500, some "Internal server error", none,
   some "I encountered a technical issue. Please try your genetics question again.",
   [], none, [], [], none⟩

/-- The 500 body of the enhanced variant's catch (src/unnamed/part_003:202-215):
error plus a non-empty fallback response. -/
def enhanced500Body : ChatResponse :=
  ⟨500, some "Internal server error", none,
   some ("I apologize for the technical issue. Here\x27s a comprehensive genetics response: " ++
     "Molecular genetics explores DNA structure, gene expression, and genetic variation. " ++
     "Key areas include DNA replication, transcription, translation, mutation mechanisms, " ++
     "and genetic engineering. What specific topic can I help you with?"),
   [], none, [], [], none⟩

/-- **C6 counterexample.** The genetics endpoint performs no input validation:
an empty-string message is answered 200 and the memory store is mutated (the
fresh user's empty history gains two turns), refuting the claim for this
endpoint. -/
theorem C6_counterexample :
    (geneticsChatHandler emptyMemory (JsMessage.str "") defaultGeneticsSession 0 "t0").1.status
      = 200 ∧
    emptyMemory.conversationMemory "default-user" = [] ∧
    ((geneticsChatHandler emptyMemory (JsMessage.str "") defaultGeneticsSession 0
        "t0").2.conversationMemory "default-user").length = 2 := by
  refine ⟨rfl, rfl, ?_⟩
  decide

/-- **C6 (amended).** On the deployment endpoint, every request whose message
is empty or not a string is answered 400 with an error object, the memory
store is returned unchanged, and no updated session is produced. -/
theorem C6_invalid_rejected (m : EnhancedMemory) (message : JsMessage)
    (userSession : UserSession) (ts : Nat) (now : String)
    (hinvalid : ∀ s, message = JsMessage.str s → s = "") :
    (deployChatHandler m message userSession ts now).1.status = 400 ∧
    (deployChatHandler m message userSession ts now).1.error.isSome = true ∧
    (deployChatHandler m message userSession ts now).2 = m ∧
    (deployChatHandler m message userSession ts now).1.updatedSession = none := by
  cases message with
  | absent => exact ⟨rfl, rfl, rfl, rfl⟩
  | nonString => exact ⟨rfl, rfl, rfl, rfl⟩
  | str s =>
    have hs : s = "" := hinvalid s rfl
    subst hs
    exact ⟨rfl, rfl, rfl, rfl⟩

/-- Witness for the amended C6: the empty-string message on a fresh store. -/
theorem C6_witness :
    (∀ s, JsMessage.str "" = JsMessage.str s → s = "") ∧
    ((deployChatHandler emptyMemory (JsMessage.str "") defaultGeneticsSession 0
        "t0").1.status = 400 ∧
      (deployChatHandler emptyMemory (JsMessage.str "") defaultGeneticsSession 0
        "t0").1.error.isSome = true ∧
      (deployChatHandler emptyMemory (JsMessage.str "") defaultGeneticsSession 0
        "t0").2 = emptyMemory ∧
      (deployChatHandler emptyMemory (JsMessage.str "") defaultGeneticsSession 0
        "t0").1.updatedSession = none) :=
  ⟨fun s h => by injection h with h2; exact h2.symm,
   C6_invalid_rejected emptyMemory (JsMessage.str "") defaultGeneticsSession 0 "t0"
     (fun s h => by injection h with h2; exact h2.symm)⟩

/-- **C7 counterexample.** A genetics-endpoint request that fails with 500
(here: a non-string message) is answered with an `error` (and `details`) but
no `response` field at all — the fallback text the claim requires is absent. -/
theorem C7_counterexample :
    (geneticsChatHandler emptyMemory JsMessage.nonString defaultGeneticsSession 0
      "t0").1.status = 500 ∧
    (geneticsChatHandler emptyMemory JsMessage.nonString defaultGeneticsSession 0
      "t0").1.response = none ∧
    (geneticsChatHandler emptyMemory JsMessage.nonString defaultGeneticsSession 0
      "t0").1.error.isSome = true :=
  ⟨rfl, rfl, rfl⟩

/-- **C7 (amended).** The 500 bodies of the deployment and enhanced chat
endpoints always carry a non-empty fallback `response` text besides the
`error` field. -/
theorem C7_fallback_present :
    (∃ s, deploy500Body.response = some s ∧ s ≠ "") ∧
    (∃ s, enhanced500Body.response = some s ∧ s ≠ "") ∧
    deploy500Body.error.isSome = true ∧
    enhanced500Body.error.isSome = true := by
  exact ⟨⟨_, rfl, by decide⟩, ⟨_, rfl, by decide⟩, rfl, rfl⟩

/-- Every fact retrieved by `retrieveRelevantFacts` is one of the two
fact-base entries. -/
theorem retrieveRelevantFacts_concepts (message : String) (context : ChatContext) :
    ∀ f ∈ retrieveRelevantFacts message context,
      f.concept = "dna_replication" ∨ f.concept = "central_dogma" := by
  intro f hf
  simp only [retrieveRelevantFacts] at hf
  have hf2 := (List.mem_filter.mp hf).1
  simp only [factBase] at hf2
  rcases List.mem_cons.mp hf2 with rfl | hf3
  · left; rfl
  · rcases List.mem_cons.mp hf3 with rfl | hf4
    · right; rfl
    · cases hf4

/-- Concepts produced by the Reasoning Engine trigger none of the genetics
concept-specific questions. -/
theorem conceptQuestions_nil (concepts : List String)
    (h : ∀ c ∈ concepts, c = "dna_replication" ∨ c = "central_dogma") :
    (concepts.map conceptQuestionsFor).flatten = [] := by
  induction concepts with
  | nil => rfl
  | cons c t ih =>
    have hc1 : conceptQuestionsFor "dna_replication" = [] := rfl
    have hc2 : conceptQuestionsFor "central_dogma" = [] := rfl
    have ht := ih (fun x hx => h x (List.mem_cons_of_mem c hx))
    rcases h c (List.mem_cons_self c t) with hc | hc <;>
      simp [hc, hc1, hc2, ht]

/-- The level-appropriate pool always holds 3 questions. -/
theorem questionTemplates_levelName_length (knowledgeLevel : ℚ) :
    (questionTemplates (levelName knowledgeLevel)).length = 3 := by
  unfold levelName
  split_ifs <;> rfl

/-- **C8.** Every successful (200) response of the genetics chat endpoint
carries exactly 2 suggested questions, both drawn from the fixed pool of the
level tier of the updated session's knowledge level: the concept-specific
prefix is empty because the Reasoning Engine only ever reports
`dna_replication` / `central_dogma`, which have no concept questions. -/
theorem C8_two_suggested_questions (m : EnhancedMemory) (s : String)
    (userSession : UserSession) (ts : Nat) (now : String) :
    (geneticsChatHandler m (JsMessage.str s) userSession ts now).1.status = 200 ∧
    (geneticsChatHandler m (JsMessage.str s) userSession ts now).1.suggestedQuestions.length
      = 2 ∧
    (∀ q ∈ (geneticsChatHandler m (JsMessage.str s) userSession ts now).1.suggestedQuestions,
      q ∈ questionTemplates (levelName (assessKnowledgeLevel userSession s))) ∧
    (s ≠ "" →
      (deployChatHandler m (JsMessage.str s) userSession ts now).1.suggestedQuestions.length
        = 2) := by
  have hconc : ∀ c ∈ (retrieveRelevantFacts s (buildEnhancedContext s userSession m)).map
      Fact.concept, c = "dna_replication" ∨ c = "central_dogma" := by
    intro c hc
    rcases List.mem_map.mp hc with ⟨f, hf, rfl⟩
    exact retrieveRelevantFacts_concepts s _ f hf
  have hnil := conceptQuestions_nil _ hconc
  refine ⟨rfl, ?_, ?_, ?_⟩
  · simp only [geneticsChatHandler, generateFollowUpQuestionsG, generateReasonedResponse,
      updateUserModelG]
    rw [hnil]
    simp only [List.take_nil, List.nil_append, List.length_take,
      questionTemplates_levelName_length]
    rfl
  · intro q hq
    simp only [geneticsChatHandler, generateFollowUpQuestionsG, generateReasonedResponse,
      updateUserModelG] at hq
    rw [hnil] at hq
    simp only [List.take_nil, List.nil_append] at hq
    exact List.mem_of_mem_take hq
  · intro hs
    simp only [deployChatHandler, if_neg hs, generateFollowUpQuestions2]
    rfl

/-- Witness for C8 at a concrete request. -/
theorem C8_witness :
    (geneticsChatHandler emptyMemory (JsMessage.str "tell me about mutation")
      defaultGeneticsSession 0 "t0").1.suggestedQuestions.length = 2 ∧
    (deployChatHandler emptyMemory (JsMessage.str "tell me about mutation")
      defaultGeneticsSession 0 "t0").1.suggestedQuestions.length = 2 :=
  ⟨(C8_two_suggested_questions emptyMemory "tell me about mutation" defaultGeneticsSession 0
      "t0").2.1,
   (C8_two_suggested_questions emptyMemory "tell me about mutation" defaultGeneticsSession 0
      "t0").2.2.2 (by decide)⟩

end GenefloAI
